import Mathlib

/-!
Verification of the screen-capture session interface declared in
`src/solder/internal/screencapture/screencapture_macos.h`.

The repository ships only the C declaration surface (the header); the
state machine, dispatch and permission logic it implies are specified in
the accompanying design document. We therefore embed the declaration
surface directly (for claims about signatures) and model the behavioural
core from the specification (for claims about the state machine and the
frame-delivery pipeline).
-/

namespace ScreenCapture

/-- Modelled from the spec: the six lifecycle states of a capture
session ("A CaptureSession is in exactly one of {Created, Starting,
Capturing, Stopping, Stopped, Destroyed} at any instant"). The
implementation behind the header is not in the repository; this type and
the operations below follow the specification text. -/
inductive LifecycleState where
  | Created
  | Starting
  | Capturing
  | Stopping
  | Stopped
  | Destroyed
  deriving DecidableEq, Repr

/-- Modelled from the spec: a frame descriptor as handed to the frame
callback (`buffer size, pixel width, pixel height, capture timestamp`).
The buffer base address is irrelevant to the claims and is omitted; the
`int64_t` timestamp is embedded as `Int` (no arithmetic is performed on
it, so overflow is not in play). -/
structure Frame where
  size : Nat
  width : Nat
  height : Nat
  timestamp : Int
  deriving DecidableEq, Repr

/-- Modelled from the spec: the attributes of a capture session —
"lifecycle state, target display id, configured maximum width/height,
registered callback reference, handle to the underlying native capture
capability". Callbacks are identified by a numeric id (`Option Nat`,
`none` meaning no registration); the native capability handle is
abstracted to a flag recording whether native resources are held. -/
structure Session where
  state : LifecycleState
  displayID : Nat
  maxWidth : Int
  maxHeight : Int
  callback : Option Nat
  nativeResources : Bool
  deriving DecidableEq, Repr

/-- Modelled from the spec: the process-wide environment observed by a
session — whether screen-recording permission is granted, the display
registry contents, and whether the native framework accepts the
configuration (the opaque `NativeCaptureError` source). -/
structure Env where
  permission : Bool
  displays : List Nat
  nativeOk : Bool
  deriving DecidableEq, Repr

/-- Modelled from the spec: the status taxonomy of section 7 —
`PermissionDenied`, `DisplayNotFound`, `AlreadyCapturing`,
`NativeCaptureError`, `InvalidHandle` — plus `Success`. -/
inductive StartStatus where
  | Success
  | PermissionDenied
  | DisplayNotFound
  | AlreadyCapturing
  | NativeCaptureError
  | InvalidHandle
  deriving DecidableEq, Repr

/-- Modelled from the spec: `CreateCaptureSession` — "create() ->
CaptureSession (state = Created). Always succeeds; acquisition of native
resources is deferred to start". -/
def CreateCaptureSession : Session :=
  { state := .Created, displayID := 0, maxWidth := 0, maxHeight := 0
    callback := none, nativeResources := false }

/-- Modelled from the spec: `StartCapture`. Fails with `AlreadyCapturing`
if the state is already Capturing/Starting (Stopping is grouped with
these, being mid-teardown), with `InvalidHandle` on a Destroyed handle,
with `PermissionDenied` when permission is not granted, with
`DisplayNotFound` when the display id is not in the registry, with
`NativeCaptureError` when the framework rejects the configuration;
otherwise transitions Created/Stopped to Capturing (the transient
Starting state collapses in this synchronous model) and records the
configuration. On every failure the session is returned unchanged. -/
def StartCapture (env : Env) (s : Session) (displayID : Nat)
    (maxWidth maxHeight : Int) : StartStatus × Session :=
  match s.state with
  | .Capturing | .Starting | .Stopping => (.AlreadyCapturing, s)
  | .Destroyed => (.InvalidHandle, s)
  | .Created | .Stopped =>
    if env.permission = false then
      (.PermissionDenied, s)
    else if env.displays.contains displayID then
      if env.nativeOk then
        (.Success, { s with state := .Capturing, displayID := displayID
                            maxWidth := maxWidth, maxHeight := maxHeight
                            nativeResources := true })
      else
        (.NativeCaptureError, s)
    else
      (.DisplayNotFound, s)

/-- Modelled from the spec: `StopCapture` — "Capturing/Starting →
Stopping → Stopped. Must be synchronous from the caller's point of view
... Idempotent: calling stop on an already-Stopped/Created session is a
no-op." The transient Stopping state collapses synchronously; an
interrupted Stopping also completes to Stopped. -/
def StopCapture (s : Session) : Session :=
  match s.state with
  | .Capturing | .Starting | .Stopping => { s with state := .Stopped }
  | _ => s

/-- Modelled from the spec: `IsCapturing` — "reflects state ==
Capturing (race-tolerant snapshot)". -/
def IsCapturing (s : Session) : Bool :=
  s.state == .Capturing

/-- Modelled from the spec: `DestroyCaptureSession` — "performs stop if
needed, releases all native resources, transitions to Destroyed"; it is
a total function (destroy never fails). -/
def DestroyCaptureSession (s : Session) : Session :=
  let s1 := StopCapture s
  { s1 with state := .Destroyed, nativeResources := false }

/-- Modelled from the spec: `SetFrameCallback` — "registers the single
active callback; replaces any prior registration; allowed in any state";
`none` models passing a null callback. -/
def SetFrameCallback (s : Session) (callback : Option Nat) : Session :=
  { s with callback := callback }

/-- Modelled from the spec: `HasScreenRecordingPermission` —
"non-blocking, reflects current OS-granted state". -/
def HasScreenRecordingPermission (env : Env) : Bool :=
  env.permission

/-- Modelled from the spec: `GetDisplayCount` over the display
registry. -/
def GetDisplayCount (env : Env) : Nat :=
  env.displays.length

/-- Modelled from the spec: `GetDisplayIDs(outArray, count)` — fills at
most `count` entries of the enumeration, in registry order. -/
def GetDisplayIDs (env : Env) (count : Nat) : List Nat :=
  env.displays.take count

/-- Modelled from the spec: `listDisplays()` — the caller-visible
enumeration, obtained by sizing with `GetDisplayCount` and then filling
with `GetDisplayIDs`. -/
def listDisplays (env : Env) : List Nat :=
  GetDisplayIDs env (GetDisplayCount env)

/-- Modelled from the spec: `GetPrimaryDisplayID` — the OS-designated
primary display, here the head of the registry enumeration. -/
def GetPrimaryDisplayID (env : Env) : Nat :=
  env.displays.headD 0

/-- Modelled from the spec: the FrameDispatcher decision for one frame
arriving from the native producer ("Validate the session is still
Capturing; if not, drop the frame silently — no callback invocation, no
error"). Returns the callback invocation to perform, if any: the
registered callback id together with the frame it receives. -/
def frameCallbackBridge (s : Session) (f : Frame) : Option (Nat × Frame) :=
  if s.state = .Capturing then
    match s.callback with
    | some cb => some (cb, f)
    | none => none
  else
    none

/-- Modelled from the spec: the events visible at a session's boundary —
the four control operations and the asynchronous arrival of a frame from
the native producer. -/
inductive Event where
  | start (displayID : Nat) (maxWidth maxHeight : Int)
  | stop
  | destroy
  | setCallback (callback : Option Nat)
  | frame (f : Frame)
  deriving DecidableEq, Repr

/-- Whether an event is a `start` control call. -/
def Event.isStart : Event → Bool
  | .start _ _ _ => true
  | _ => false

/-- Modelled from the spec: the observable world of one session — the
environment, the session attributes, and the accumulated list of
callback invocations (callback id paired with the delivered frame). -/
structure World where
  env : Env
  session : Session
  delivered : List (Nat × Frame)
  deriving DecidableEq, Repr

/-- Modelled from the spec: one step of the session state machine with
its frame-delivery pipeline. Control events apply the corresponding
operation; a `frame` event is routed through `frameCallbackBridge` and
either appends one callback invocation or leaves the world unchanged. -/
def stepEvent (w : World) (e : Event) : World :=
  match e with
  | .start d mw mh =>
    { w with session := (StartCapture w.env w.session d mw mh).2 }
  | .stop => { w with session := StopCapture w.session }
  | .destroy => { w with session := DestroyCaptureSession w.session }
  | .setCallback c => { w with session := SetFrameCallback w.session c }
  | .frame f =>
    match frameCallbackBridge w.session f with
    | some d => { w with delivered := w.delivered ++ [d] }
    | none => w

/-- Run a sequence of events from a world. -/
def run (w : World) (es : List Event) : World :=
  es.foldl stepEvent w

/-- The capture timestamps of the frames arriving from the native
producer along an event sequence, in arrival order. -/
def frameTimestamps (es : List Event) : List Int :=
  es.filterMap fun e =>
    match e with
    | .frame f => some f.timestamp
    | _ => none

/-- The capture timestamps of the frames actually delivered to the
callback, in delivery order. -/
def deliveredTimestamps (w : World) : List Int :=
  w.delivered.map fun d => d.2.timestamp

namespace Header

/-- The twelve functions declared in
`src/solder/internal/screencapture/screencapture_macos.h`, in
declaration order. -/
inductive HeaderFun where
  | frameCallbackBridge
  | CreateCaptureSession
  | DestroyCaptureSession
  | StartCapture
  | StopCapture
  | IsCapturing
  | SetFrameCallback
  | HasScreenRecordingPermission
  | RequestScreenRecordingPermission
  | GetPrimaryDisplayID
  | GetDisplayCount
  | GetDisplayIDs
  deriving DecidableEq, Repr

/-- The C return types occurring in the header. -/
inductive CRet where
  | void
  | int
  | uint32
  | pointer
  deriving DecidableEq, Repr

/-- The return type of each declared function, transcribed from the
header: `void frameCallbackBridge(...)`, `void* CreateCaptureSession(void)`,
`void DestroyCaptureSession(void*)`, `int StartCapture(...)`,
`void StopCapture(void*)`, `int IsCapturing(void*)`,
`void SetFrameCallback(...)`, `int HasScreenRecordingPermission(void)`,
`void RequestScreenRecordingPermission(void)`,
`uint32_t GetPrimaryDisplayID(void)`, `int GetDisplayCount(void)`,
`void GetDisplayIDs(uint32_t*, int)`. -/
def returnType : HeaderFun → CRet
  | .frameCallbackBridge => .void
  | .CreateCaptureSession => .pointer
  | .DestroyCaptureSession => .void
  | .StartCapture => .int
  | .StopCapture => .void
  | .IsCapturing => .int
  | .SetFrameCallback => .void
  | .HasScreenRecordingPermission => .int
  | .RequestScreenRecordingPermission => .void
  | .GetPrimaryDisplayID => .uint32
  | .GetDisplayCount => .int
  | .GetDisplayIDs => .void

/-- The public control operations on a session: start, stop, destroy,
and callback registration. -/
def controlOperations : List HeaderFun :=
  [.StartCapture, .StopCapture, .DestroyCaptureSession, .SetFrameCallback]

end Header

/-! ## Helper lemmas -/

theorem stopCapture_not_capturing (s : Session) :
    (StopCapture s).state ≠ .Capturing := by
  obtain ⟨st, d, mw, mh, cb, nr⟩ := s
  cases st <;> simp [StopCapture]

theorem stepEvent_no_start (w : World) (e : Event)
    (hs : w.session.state ≠ .Capturing) (he : e.isStart = false) :
    (stepEvent w e).delivered = w.delivered ∧
    (stepEvent w e).session.state ≠ .Capturing := by
  cases e with
  | start d mw mh => simp [Event.isStart] at he
  | stop => exact ⟨rfl, stopCapture_not_capturing _⟩
  | destroy => exact ⟨rfl, by simp [stepEvent, DestroyCaptureSession]⟩
  | setCallback c => exact ⟨rfl, hs⟩
  | frame f =>
    have hb : frameCallbackBridge w.session f = none := by
      simp [frameCallbackBridge, hs]
    simp [stepEvent, hb]
    exact hs

theorem run_quiescent (es : List Event) : ∀ w : World,
    w.session.state ≠ .Capturing → (∀ e ∈ es, e.isStart = false) →
    (run w es).delivered = w.delivered := by
  induction es with
  | nil => intro w _ _; rfl
  | cons e es ih =>
    intro w hs hall
    have he := hall e (List.mem_cons_self e es)
    have h1 := stepEvent_no_start w e hs he
    have hrw : run w (e :: es) = run (stepEvent w e) es := rfl
    rw [hrw, ih _ h1.2 fun x hx => hall x (List.mem_cons_of_mem e hx), h1.1]

theorem stepEvent_destroyed (w : World) (e : Event)
    (h : w.session.state = .Destroyed) :
    (stepEvent w e).session.state = .Destroyed := by
  obtain ⟨env, ⟨st, d, mw, mh, cb, nr⟩, dl⟩ := w
  simp at h
  subst h
  cases e with
  | start d0 mw0 mh0 => rfl
  | stop => rfl
  | destroy => rfl
  | setCallback c => rfl
  | frame f => simp [stepEvent, frameCallbackBridge]

theorem run_destroyed (es : List Event) : ∀ w : World,
    w.session.state = .Destroyed →
    (run w es).session.state = .Destroyed := by
  induction es with
  | nil => intro w h; exact h
  | cons e es ih =>
    intro w h
    exact ih (stepEvent w e) (stepEvent_destroyed w e h)

theorem frameCallbackBridge_frame (s : Session) (f : Frame)
    (d : Nat × Frame) (h : frameCallbackBridge s f = some d) : d.2 = f := by
  unfold frameCallbackBridge at h
  by_cases hs : s.state = .Capturing
  · rw [if_pos hs] at h
    cases hc : s.callback with
    | none => rw [hc] at h; exact absurd h (by simp)
    | some cb =>
      rw [hc] at h
      simp at h
      rw [← h]
  · rw [if_neg hs] at h
    exact absurd h (by simp)

theorem run_delivered_extends (es : List Event) : ∀ w : World,
    ∃ suf : List (Nat × Frame),
      (run w es).delivered = w.delivered ++ suf ∧
      (suf.map fun d => d.2.timestamp).Sublist (frameTimestamps es) := by
  induction es with
  | nil =>
    intro w
    exact ⟨[], by simp [run], by simp [frameTimestamps]⟩
  | cons e es ih =>
    intro w
    obtain ⟨suf, h1, h2⟩ := ih (stepEvent w e)
    have hrw : run w (e :: es) = run (stepEvent w e) es := rfl
    cases e with
    | frame f =>
      have hts : frameTimestamps (Event.frame f :: es)
          = f.timestamp :: frameTimestamps es := by
        simp [frameTimestamps]
      cases hb : frameCallbackBridge w.session f with
      | some d =>
        refine ⟨d :: suf, ?_, ?_⟩
        · have hst : (stepEvent w (.frame f)).delivered
              = w.delivered ++ [d] := by simp [stepEvent, hb]
          rw [hrw, h1, hst, List.append_assoc]
          rfl
        · rw [hts]
          have hd : d.2 = f := frameCallbackBridge_frame w.session f d hb
          simpa [hd] using List.Sublist.cons₂ f.timestamp h2
      | none =>
        refine ⟨suf, ?_, ?_⟩
        · have hst : stepEvent w (.frame f) = w := by simp [stepEvent, hb]
          rw [hrw, h1, hst]
        · rw [hts]
          exact List.Sublist.cons f.timestamp h2
    | start d0 mw0 mh0 =>
      refine ⟨suf, by rw [hrw, h1]; rfl, by simpa [frameTimestamps] using h2⟩
    | stop =>
      refine ⟨suf, by rw [hrw, h1]; rfl, by simpa [frameTimestamps] using h2⟩
    | destroy =>
      refine ⟨suf, by rw [hrw, h1]; rfl, by simpa [frameTimestamps] using h2⟩
    | setCallback c =>
      refine ⟨suf, by rw [hrw, h1]; rfl, by simpa [frameTimestamps] using h2⟩

/-! ## Concrete fixtures used by witnesses and counterexamples -/

def sampleEnv : Env :=
  { permission := true, displays := [1, 2], nativeOk := true }

def noPermissionEnv : Env :=
  { permission := false, displays := [1, 2], nativeOk := true }

def capturingSession : Session :=
  { state := .Capturing, displayID := 1, maxWidth := 0, maxHeight := 0
    callback := some 0, nativeResources := true }

def stoppedSession : Session :=
  { capturingSession with state := .Stopped, nativeResources := false }

def sampleFrame : Frame :=
  { size := 100, width := 640, height := 480, timestamp := 5 }

def laterFrame : Frame :=
  { size := 100, width := 640, height := 480, timestamp := 9 }

def capturingWorld : World :=
  { env := sampleEnv, session := capturingSession, delivered := [] }

def stoppedWorld : World :=
  { env := sampleEnv, session := stoppedSession, delivered := [] }

def destroyedWorld : World :=
  { env := sampleEnv, session := DestroyCaptureSession capturingSession
    delivered := [] }

def postStopEvents : List Event :=
  [.frame sampleFrame, .setCallback (some 2), .frame laterFrame, .stop,
   .destroy]

def postDestroyEvents : List Event :=
  [.start 1 0 0, .frame sampleFrame, .stop, .setCallback (some 3), .destroy]

def monoEvents : List Event :=
  [.frame sampleFrame, .frame sampleFrame, .stop, .frame laterFrame,
   .start 1 0 0, .frame laterFrame]

/-! ## Claim theorems -/

/-- C1: once `StopCapture` has returned, no frame callback for that
session is invoked afterward as long as the session is not restarted,
even for frames that were already in the native producer's pipeline at
the time of the call — such frames are discarded: the delivered list
never grows past its value at the stop. -/
theorem stop_quiescence (w : World) (es : List Event)
    (h : ∀ e ∈ es, e.isStart = false) :
    (run (stepEvent w .stop) es).delivered = w.delivered := by
  have hs : (stepEvent w Event.stop).session.state ≠ .Capturing :=
    stopCapture_not_capturing w.session
  have hd : (stepEvent w Event.stop).delivered = w.delivered := rfl
  rw [run_quiescent es _ hs h, hd]

theorem stop_quiescence_check :
    (run (stepEvent capturingWorld .stop) postStopEvents).delivered
      = capturingWorld.delivered :=
  stop_quiescence capturingWorld postStopEvents (by decide)

/-- C2: a frame arriving from the native producer while the session is
in any state other than Capturing is dropped silently — the callback is
not invoked, no error is reported, and the world is left entirely
unchanged. -/
theorem frame_dropped_unless_capturing (w : World) (f : Frame)
    (hs : w.session.state ≠ .Capturing) :
    stepEvent w (.frame f) = w := by
  have hb : frameCallbackBridge w.session f = none := by
    simp [frameCallbackBridge, hs]
  simp [stepEvent, hb]

theorem frame_dropped_unless_capturing_check :
    stepEvent stoppedWorld (.frame sampleFrame) = stoppedWorld :=
  frame_dropped_unless_capturing stoppedWorld sampleFrame (by decide)

/-- C3: `IsCapturing` returns true exactly when the session's lifecycle
state is Capturing; in particular it returns false on any session whose
state is Stopped or Destroyed. -/
theorem isCapturing_iff_capturing (s : Session) :
    (IsCapturing s = true ↔ s.state = .Capturing) ∧
    IsCapturing { s with state := .Stopped } = false ∧
    IsCapturing { s with state := .Destroyed } = false := by
  refine ⟨?_, rfl, rfl⟩
  simp [IsCapturing]

/-- C4: calling `StartCapture` on a session whose state is Capturing or
Starting returns the `AlreadyCapturing` status and returns the session
itself, with every attribute unchanged. -/
theorem start_on_active_already_capturing (env : Env) (s : Session)
    (d : Nat) (mw mh : Int)
    (h : s.state = .Capturing ∨ s.state = .Starting) :
    StartCapture env s d mw mh = (.AlreadyCapturing, s) := by
  obtain ⟨st, d0, mw0, mh0, cb, nr⟩ := s
  cases st <;> simp_all [StartCapture]

theorem start_on_active_already_capturing_check :
    StartCapture sampleEnv capturingSession 2 0 0
      = (.AlreadyCapturing, capturingSession) :=
  start_on_active_already_capturing sampleEnv capturingSession 2 0 0
    (Or.inl rfl)

/-- C5: calling `StartCapture` on a session in the Created state while
screen-recording permission is not granted returns the
`PermissionDenied` status, and the session's state remains Created. -/
theorem start_without_permission_denied (env : Env) (s : Session)
    (d : Nat) (mw mh : Int)
    (h1 : s.state = .Created) (h2 : env.permission = false) :
    StartCapture env s d mw mh = (.PermissionDenied, s) ∧
    (StartCapture env s d mw mh).2.state = .Created := by
  obtain ⟨st, d0, mw0, mh0, cb, nr⟩ := s
  cases st <;> simp_all [StartCapture]

theorem start_without_permission_denied_check :
    StartCapture noPermissionEnv CreateCaptureSession 1 0 0
      = (.PermissionDenied, CreateCaptureSession) ∧
    (StartCapture noPermissionEnv CreateCaptureSession 1 0 0).2.state
      = .Created :=
  start_without_permission_denied noPermissionEnv CreateCaptureSession
    1 0 0 rfl rfl

/-- C6: `DestroyCaptureSession` on any state stops the session if
needed, releases the native resources, and moves it to the terminal
Destroyed state; it is a total function (it never fails), `IsCapturing`
on the destroyed session reports false, and Destroyed is absorbing: no
later event sequence — control calls or frame arrivals — ever leaves it,
so `IsCapturing` keeps reporting false deterministically. -/
theorem destroy_terminal_absorbing (s : Session) (w : World)
    (es : List Event) (hw : w.session.state = .Destroyed) :
    (DestroyCaptureSession s).state = .Destroyed ∧
    (DestroyCaptureSession s).nativeResources = false ∧
    IsCapturing (DestroyCaptureSession s) = false ∧
    (run w es).session.state = .Destroyed ∧
    IsCapturing (run w es).session = false := by
  have habs := run_destroyed es w hw
  refine ⟨rfl, rfl, rfl, habs, ?_⟩
  simp [IsCapturing, habs]

theorem destroy_terminal_absorbing_check :
    (DestroyCaptureSession capturingSession).state = .Destroyed ∧
    (DestroyCaptureSession capturingSession).nativeResources = false ∧
    IsCapturing (DestroyCaptureSession capturingSession) = false ∧
    (run destroyedWorld postDestroyEvents).session.state = .Destroyed ∧
    IsCapturing (run destroyedWorld postDestroyEvents).session = false :=
  destroy_terminal_absorbing capturingSession destroyedWorld
    postDestroyEvents (by decide)

/-- C7: if the frames arriving from the native producer carry
non-decreasing capture timestamps, then the sequence of frames actually
delivered to the callback also has non-decreasing timestamps: for every
pair of consecutive deliveries, the earlier timestamp is at most the
later one. -/
theorem delivered_timestamps_monotone (w : World) (es : List Event)
    (h0 : w.delivered = []) (h : (frameTimestamps es).Chain' (· ≤ ·)) :
    (deliveredTimestamps (run w es)).Chain' (· ≤ ·) := by
  obtain ⟨suf, h1, h2⟩ := run_delivered_extends es w
  have hd : deliveredTimestamps (run w es)
      = suf.map fun d => d.2.timestamp := by
    simp [deliveredTimestamps, h1, h0]
  rw [hd, List.chain'_iff_pairwise]
  rw [List.chain'_iff_pairwise] at h
  exact List.Pairwise.sublist h2 h

theorem delivered_timestamps_monotone_check :
    (deliveredTimestamps (run capturingWorld monoEvents)).Chain' (· ≤ ·) :=
  delivered_timestamps_monotone capturingWorld monoEvents rfl
    (by rw [show frameTimestamps monoEvents = [5, 5, 9, 9] from rfl,
          List.chain'_iff_pairwise]
        decide)

/-- C8 counterexample: `SetFrameCallback` is accepted while the session
is Capturing and does change the registered callback there, refuting the
claim that the registration changes only while the session is not in the
Capturing state. -/
theorem setCallback_while_capturing_changes :
    capturingSession.state = .Capturing ∧
    (SetFrameCallback capturingSession (some 1)).callback
      ≠ capturingSession.callback := by
  decide

/-- C8 (amended): in every lifecycle state — Created, Starting,
Capturing, Stopping, Stopped, Destroyed alike — `SetFrameCallback`
replaces any prior registration with the new one; the single
`Option`-valued slot means at most one callback is active at a time; the
lifecycle state is untouched; and the newly registered callback takes
effect only for frames delivered after the call returns: the call itself
changes no past delivery, and the next arriving frame goes to the newly
registered callback exactly when the session is Capturing (and to no
callback otherwise). -/
theorem setCallback_replace_semantics (w : World) (c : Option Nat)
    (f : Frame) :
    (SetFrameCallback w.session c).callback = c ∧
    (SetFrameCallback w.session c).state = w.session.state ∧
    (stepEvent w (.setCallback c)).delivered = w.delivered ∧
    (stepEvent (stepEvent w (.setCallback c)) (.frame f)).delivered
      = w.delivered ++
          (if w.session.state = .Capturing then
            (c.map fun cb => (cb, f)).toList
          else []) := by
  refine ⟨rfl, rfl, rfl, ?_⟩
  by_cases h : w.session.state = .Capturing
  · cases c with
    | none =>
      have hb : frameCallbackBridge (SetFrameCallback w.session none) f
          = none := by
        simp [frameCallbackBridge, SetFrameCallback, h]
      simp [stepEvent, hb, h]
    | some cb =>
      have hb : frameCallbackBridge (SetFrameCallback w.session (some cb)) f
          = some (cb, f) := by
        simp [frameCallbackBridge, SetFrameCallback, h]
      simp [stepEvent, hb, h]
  · have hb : frameCallbackBridge (SetFrameCallback w.session c) f
        = none := by
      simp [frameCallbackBridge, SetFrameCallback, h]
    simp [stepEvent, hb, h]

theorem setCallback_replace_semantics_check :
    ((SetFrameCallback capturingWorld.session (some 1)).callback = some 1 ∧
     (SetFrameCallback capturingWorld.session (some 1)).state
       = capturingWorld.session.state ∧
     (stepEvent capturingWorld (.setCallback (some 1))).delivered
       = capturingWorld.delivered ∧
     (stepEvent (stepEvent capturingWorld (.setCallback (some 1)))
         (.frame sampleFrame)).delivered
       = capturingWorld.delivered ++
           (if capturingWorld.session.state = .Capturing then
             ((some 1).map fun cb => (cb, sampleFrame)).toList
           else [])) ∧
    ((SetFrameCallback stoppedWorld.session (some 2)).callback = some 2 ∧
     (SetFrameCallback stoppedWorld.session (some 2)).state
       = stoppedWorld.session.state ∧
     (stepEvent stoppedWorld (.setCallback (some 2))).delivered
       = stoppedWorld.delivered ∧
     (stepEvent (stepEvent stoppedWorld (.setCallback (some 2)))
         (.frame sampleFrame)).delivered
       = stoppedWorld.delivered ++
           (if stoppedWorld.session.state = .Capturing then
             ((some 2).map fun cb => (cb, sampleFrame)).toList
           else [])) :=
  ⟨setCallback_replace_semantics capturingWorld (some 1) sampleFrame,
   setCallback_replace_semantics stoppedWorld (some 2) sampleFrame⟩

/-- C9: at a quiescent point the display enumeration returned by
`listDisplays` has exactly `GetDisplayCount` entries. -/
theorem listDisplays_length_eq_count (env : Env) :
    (listDisplays env).length = GetDisplayCount env := by
  simp [listDisplays, GetDisplayIDs, GetDisplayCount]

/-- C10: among the four public control operations declared in the
header, only `StartCapture` returns a value (an `int` status code);
`StopCapture`, `DestroyCaptureSession` and `SetFrameCallback` are
declared `void`, so no failure can be signalled to the caller through
their return. -/
theorem only_startCapture_returns_status :
    (Header.controlOperations.map fun f => (f, Header.returnType f))
      = [(.StartCapture, .int), (.StopCapture, .void),
         (.DestroyCaptureSession, .void), (.SetFrameCallback, .void)] := by
  rfl

end ScreenCapture
